import Mathlib

/-!
Verification of the development-platforms-ca Express API.

The repository is a small Express/TypeScript API over two MySQL tables
(`users`, `articles`).  This file gives a shallow embedding of its route
handlers (src/src/routes/auth.ts, src/src/routes/users.ts,
src/src/routes/articles.ts, mounted in src/src/index.ts) and settles the
frozen claims about it.

Conventions of the embedding:
- The database is a pure value (`Db`); each SQL statement of the source is a
  function on `Db` translated from the statement's semantics.  `affectedRows`
  of an UPDATE counts rows actually changed (the MySQL/mysql2 default) and of
  a DELETE the rows removed.
- `bcrypt.hash` is randomized, so register handlers take the digest it
  produced for the request as an argument; `bcrypt.compare` is an arbitrary
  function argument.
- JSON response bodies are `JsonVal` values; `res.status(s).json(b)` becomes
  an `HttpResponse` with `status := s` and `body := b`.
- The middleware files src/middleware/auth-validation.ts,
  src/middleware/user-validation.ts and src/utils/jwt.ts are not under src/;
  where a claim depends on them they are modelled from the spec (sections
  4.2, 4.3, 4.4 and 7) and marked `Modelled from the spec`.
-/

namespace DevPlatformsCA

/-- A row of the `users` table (interface User in src/src/interfaces.ts plus the
stored `password` column, which `SELECT *` returns). -/
structure User where
  id : Nat
  username : String
  email : String
  password : String
deriving DecidableEq, Repr

/-- A row of the `articles` table (interface Article in src/src/interfaces.ts);
`created_at` is a timestamp, modelled as a natural number. -/
structure Article where
  id : Nat
  title : String
  body : String
  category : String
  submitted_by : Nat
  created_at : Nat
deriving DecidableEq, Repr

/-- The database state: both tables plus the AUTO_INCREMENT counters that
produce `insertId`. -/
structure Db where
  users : List User
  articles : List Article
  nextUserId : Nat
  nextArticleId : Nat
deriving DecidableEq, Repr

/-- JSON values, for response bodies. -/
inductive JsonVal where
  | str : String → JsonVal
  | num : Int → JsonVal
  | obj : List (String × JsonVal) → JsonVal
  | arr : List JsonVal → JsonVal
deriving Repr

mutual

/-- Whether a JSON value contains a field named `k`, at any nesting depth. -/
def JsonVal.hasKey (k : String) : JsonVal → Bool
  | JsonVal.str _ => false
  | JsonVal.num _ => false
  | JsonVal.obj fs => hasKeyFields k fs
  | JsonVal.arr vs => hasKeyArr k vs

/-- Whether a list of JSON object fields contains a field named `k`. -/
def hasKeyFields (k : String) : List (String × JsonVal) → Bool
  | [] => false
  | (k', v) :: rest => k' == k || JsonVal.hasKey k v || hasKeyFields k rest

/-- Whether a list of JSON array items contains a field named `k`. -/
def hasKeyArr (k : String) : List JsonVal → Bool
  | [] => false
  | v :: rest => JsonVal.hasKey k v || hasKeyArr k rest

end

/-- An HTTP response: status code and JSON body.  A 204 or an error that
escapes the handler sends no JSON body; those cases are stated at their use
sites. -/
structure HttpResponse where
  status : Nat
  body : JsonVal
deriving Repr

/-- Body shape `res.json` produces for an error object. -/
def errorBody (msg : String) : JsonVal :=
  JsonVal.obj [("error", JsonVal.str msg)]

/-- Body shape `res.json` produces for a message object. -/
def messageBody (msg : String) : JsonVal :=
  JsonVal.obj [("message", JsonVal.str msg)]

/-- The UserResponse shape of src/src/interfaces.ts: id, username, email; no
password field. -/
def userResponseJson (id : Nat) (username email : String) : JsonVal :=
  JsonVal.obj [("id", JsonVal.num id), ("username", JsonVal.str username),
               ("email", JsonVal.str email)]

/-- A full `users` row as `res.json` serializes it after `SELECT *`: all four
columns, the stored password digest included. -/
def userRowJson (u : User) : JsonVal :=
  JsonVal.obj [("id", JsonVal.num u.id), ("username", JsonVal.str u.username),
               ("email", JsonVal.str u.email), ("password", JsonVal.str u.password)]

/-! ## SQL statements on the users table -/

/-- The query `SELECT * FROM users WHERE email = ? OR username = ?` with bound
parameters `(p1, p2)`: the first placeholder is compared against the email
column, the second against the username column. -/
def selectUsersByEmailOrUsername (db : Db) (p1 p2 : String) : List User :=
  db.users.filter (fun u => u.email == p1 || u.username == p2)

/-- The query `SELECT id, username, email, password FROM users WHERE email = ?`. -/
def selectUsersByEmail (db : Db) (email : String) : List User :=
  db.users.filter (fun u => u.email == email)

/-- The statement `INSERT INTO users (username, email, password) VALUES (?, ?, ?)`;
returns the updated table and `result.insertId`. -/
def insertUser (db : Db) (username email password : String) : Db × Nat :=
  ({ db with users := db.users ++ [⟨db.nextUserId, username, email, password⟩],
             nextUserId := db.nextUserId + 1 },
   db.nextUserId)

/-! ## POST /auth/register and POST /users/register -/

/-- POST /auth/register (src/src/routes/auth.ts:68-108).  The existence query
is executed with the parameter array `[username, email]`, so `username` is
bound to the email-column placeholder and `email` to the username-column
placeholder.  `hashedPassword` is the digest bcrypt.hash produced. -/
def authRegister (db : Db) (username email hashedPassword : String) :
    HttpResponse × Db :=
  let existingUsers := selectUsersByEmailOrUsername db username email
  if existingUsers.length > 0 then
    (⟨400, errorBody "User already exists with that email or username"⟩, db)
  else
    let res := insertUser db username email hashedPassword
    (⟨201, JsonVal.obj [("message", JsonVal.str "User registered successfully"),
                        ("user", userResponseJson res.2 username email)]⟩,
     res.1)

/-- POST /users/register (src/src/routes/users.ts:69-109), mounted by
`app.use("/users", userRoutes)` in src/src/index.ts.  Identical to
/auth/register except that the existence query's parameter array is
`[email, username]`, matching the column order of the SQL text. -/
def usersRegister (db : Db) (username email hashedPassword : String) :
    HttpResponse × Db :=
  let existingUsers := selectUsersByEmailOrUsername db email username
  if existingUsers.length > 0 then
    (⟨400, errorBody "User already exists with that email or username"⟩, db)
  else
    let res := insertUser db username email hashedPassword
    (⟨201, JsonVal.obj [("message", JsonVal.str "User registered successfully"),
                        ("user", userResponseJson res.2 username email)]⟩,
     res.1)

/-! ## Token issuing and verification

Modelled from the spec: src/utils/jwt.ts (generateToken) and the verification
used by the auth middleware are not under src/.  Spec 4.2: a token is a signed
assertion embedding the subject id and an expiry; verification needs only the
process-wide secret and fails with InvalidToken (bad signature or malformed)
or ExpiredToken. -/

/-- Modelled from the spec (4.2): a signed token embedding subject and expiry. -/
structure Token where
  subject : Nat
  expiresAt : Nat
  signature : String
deriving DecidableEq, Repr

/-- Modelled from the spec (4.2): issuing signs with the secret and stamps an
expiry `lifetime` from `now`. -/
def generateToken (secret : String) (now lifetime subject : Nat) : Token :=
  ⟨subject, now + lifetime, secret⟩

/-- Token verification failures of spec 4.2. -/
inductive TokenError where
  | invalidToken
  | expiredToken
deriving DecidableEq, Repr

/-- Modelled from the spec (4.2): verify checks the signature against the
secret and the expiry against the current time, returning the subject id. -/
def verifyToken (secret : String) (now : Nat) (t : Token) : Except TokenError Nat :=
  if t.signature != secret then Except.error TokenError.invalidToken
  else if t.expiresAt ≤ now then Except.error TokenError.expiredToken
  else Except.ok t.subject

/-- Serialization of a token into the string carried by the response. -/
def tokenString (t : Token) : String :=
  toString t.subject ++ "." ++ toString t.expiresAt ++ "." ++ t.signature

/-! ## POST /auth/login -/

/-- POST /auth/login (src/src/routes/auth.ts:163-208).  `compare` stands for
`bcrypt.compare` (spec 4.1: verify(plaintext, digest) -> boolean). -/
def authLogin (compare : String → String → Bool) (secret : String)
    (now lifetime : Nat) (db : Db) (email password : String) : HttpResponse :=
  let users := selectUsersByEmail db email
  match users with
  | [] => ⟨401, errorBody "Invalid email or password"⟩
  | user :: _ =>
    if !(compare password user.password) then
      ⟨401, errorBody "Invalid email or password"⟩
    else
      ⟨200, JsonVal.obj
        [("message", JsonVal.str "Login successful"),
         ("user", userResponseJson user.id user.username user.email),
         ("token", JsonVal.str (tokenString (generateToken secret now lifetime user.id)))]⟩

/-! ## Mutating /users/:id handlers

The routes run `authenticateToken, validateUserId, ...` before the handler
body; the handler reads `req.user!.id` (the identity the gate attached, here
`authId`) and `Number(req.params.id)` (here `pathId`, a natural number once
validateUserId has admitted it). -/

/-- The statement `UPDATE users SET username = ?, email = ? WHERE id = ?`.
Returns the updated table and `affectedRows`, the number of rows actually
changed. -/
def updateUser (db : Db) (username email : String) (userId : Nat) : Db × Nat :=
  ({ db with users := db.users.map (fun u =>
      if u.id = userId then { u with username := username, email := email } else u) },
   (db.users.filter (fun u =>
      u.id == userId && !(u.username == username && u.email == email))).length)

/-- PUT /users/:id handler body (src/src/routes/users.ts:166-197). -/
def putUser (authId pathId : Nat) (username email : String) (db : Db) :
    HttpResponse × Db :=
  if authId ≠ pathId then
    (⟨403, errorBody "Users can only update their own account"⟩, db)
  else
    let res := updateUser db username email pathId
    if res.2 = 0 then
      (⟨404, messageBody "User not found"⟩, res.1)
    else
      (⟨200, JsonVal.obj [("id", JsonVal.num pathId),
                          ("username", JsonVal.str username),
                          ("email", JsonVal.str email)]⟩, res.1)

/-- JavaScript truthiness of an optional string request-body field: absent
(`undefined`) and the empty string are both falsy. -/
def truthy : Option String → Bool
  | none => false
  | some s => s != ""

/-- The dynamic `UPDATE users SET ... WHERE id = ?` that PATCH builds
(src/src/routes/users.ts:266-284): a SET item is included per truthy field.
When neither field is truthy the SET clause is empty, MySQL rejects the
statement and pool.execute throws: modelled as `none`. -/
def patchUpdate (db : Db) (username? email? : Option String) (userId : Nat) :
    Option (Db × Nat) :=
  if !truthy username? && !truthy email? then none
  else
    let applyPatch := fun (u : User) =>
      { u with
        username := if truthy username? then username?.getD u.username else u.username,
        email := if truthy email? then email?.getD u.email else u.email }
    some ({ db with users := db.users.map (fun u =>
              if u.id = userId then applyPatch u else u) },
          (db.users.filter (fun u => u.id == userId && !(applyPatch u == u))).length)

/-- PATCH /users/:id handler body (src/src/routes/users.ts:251-300).  After a
nonzero-row update it re-reads the row with `SELECT * FROM users WHERE id = ?`
and sends `users[0]` — the whole row including the password column — as the
response body.  The thrown empty-SET statement is caught by the handler's
catch and becomes the 500 response. -/
def patchUser (authId pathId : Nat) (username? email? : Option String) (db : Db) :
    HttpResponse × Db :=
  if authId ≠ pathId then
    (⟨403, errorBody "Users can only update their own account"⟩, db)
  else
    match patchUpdate db username? email? pathId with
    | none => (⟨500, messageBody "Internal server error"⟩, db)
    | some (db', affected) =>
      (if affected = 0 then
        ⟨404, messageBody "User not found"⟩
      else
        match db'.users.filter (fun u => u.id == pathId) with
        | u :: _ => ⟨200, userRowJson u⟩
        | [] => ⟨200, JsonVal.obj []⟩,
       db')

/-- The statement `DELETE FROM users WHERE id = ?`; `affectedRows` is the
number of rows removed. -/
def deleteUserRow (db : Db) (userId : Nat) : Db × Nat :=
  ({ db with users := db.users.filter (fun u => u.id != userId) },
   (db.users.filter (fun u => u.id == userId)).length)

/-- DELETE /users/:id handler body (src/src/routes/users.ts:329-351).  The 204
sends no JSON body, modelled as an empty object; the 403 message really says
"update" in the source (the copy-paste defect spec section 9 notes). -/
def deleteUser (authId pathId : Nat) (db : Db) : HttpResponse × Db :=
  if authId ≠ pathId then
    (⟨403, errorBody "Users can only update their own account"⟩, db)
  else
    let res := deleteUserRow db pathId
    if res.2 = 0 then
      (⟨404, messageBody "User not found"⟩, res.1)
    else
      (⟨204, JsonVal.obj []⟩, res.1)

/-! ## POST /articles -/

/-- The statement `INSERT INTO articles (title, body, category, submitted_by)
VALUES (?, ?, ?, ?)`; `created_at` is filled by the database, passed here as
`createdAt`.  Returns the updated table and `result.insertId`. -/
def insertArticle (db : Db) (title bodyText category : String)
    (submitted_by createdAt : Nat) : Db × Nat :=
  let row : Article := ⟨db.nextArticleId, title, bodyText, category, submitted_by, createdAt⟩
  ({ db with articles := db.articles ++ [row],
             nextArticleId := db.nextArticleId + 1 },
   db.nextArticleId)

/-- POST /articles handler body (src/src/routes/articles.ts:110-140), run
after authenticateToken; `authId` is the attached identity, stamped into
`submitted_by`.  The `!title || !body || !category` guard treats absent and
empty-string fields alike (both falsy), so the fields arrive as strings with
"" standing for an absent field. -/
def postArticle (authId : Nat) (title bodyText category : String)
    (createdAt : Nat) (db : Db) : HttpResponse × Db :=
  if title == "" || bodyText == "" || category == "" then
    (⟨400, errorBody "Missing required fields"⟩, db)
  else
    let res := insertArticle db title bodyText category authId createdAt
    (⟨201, JsonVal.obj
      [("message", JsonVal.str "Article created"),
       ("article", JsonVal.obj
         [("id", JsonVal.num res.2), ("title", JsonVal.str title),
          ("body", JsonVal.str bodyText), ("category", JsonVal.str category),
          ("user_id", JsonVal.num authId)])]⟩,
     res.1)

/-! ## Auth gate and the protected routes -/

/-- The state of the authorization header of a request. -/
inductive AuthHeader where
  | missing
  | malformed (raw : String)
  | bearer (token : Token)
deriving Repr

/-- Modelled from the spec: `authenticateToken` (src/middleware/auth-validation.ts
is not under src/).  Spec 4.3: a missing or malformed header fails 401 with no
handler invoked; an invalid or expired token fails 401; on success the subject
id is attached and the downstream handler runs. -/
def authGate (secret : String) (now : Nat) (hdr : AuthHeader)
    (handler : Nat → Db → HttpResponse × Db) (db : Db) : HttpResponse × Db :=
  match hdr with
  | AuthHeader.missing => (⟨401, errorBody "Unauthorized"⟩, db)
  | AuthHeader.malformed _ => (⟨401, errorBody "Unauthorized"⟩, db)
  | AuthHeader.bearer t =>
    match verifyToken secret now t with
    | Except.error _ => (⟨401, errorBody "Unauthorized"⟩, db)
    | Except.ok subject => handler subject db

/-- Whether the auth gate rejects the request before any handler runs:
header missing, malformed, or carrying a token that fails verification. -/
def authRejected (secret : String) (now : Nat) (hdr : AuthHeader) : Bool :=
  match hdr with
  | AuthHeader.missing => true
  | AuthHeader.malformed _ => true
  | AuthHeader.bearer t =>
    match verifyToken secret now t with
    | Except.error _ => true
    | Except.ok _ => false

/-- The full PUT /users/:id route: authenticateToken then the handler body. -/
def putUsersRoute (secret : String) (now : Nat) (hdr : AuthHeader)
    (pathId : Nat) (username email : String) (db : Db) : HttpResponse × Db :=
  authGate secret now hdr (fun authId => putUser authId pathId username email) db

/-- The full PATCH /users/:id route: authenticateToken then the handler body. -/
def patchUsersRoute (secret : String) (now : Nat) (hdr : AuthHeader)
    (pathId : Nat) (username? email? : Option String) (db : Db) : HttpResponse × Db :=
  authGate secret now hdr (fun authId => patchUser authId pathId username? email?) db

/-- The full DELETE /users/:id route: authenticateToken then the handler body. -/
def deleteUsersRoute (secret : String) (now : Nat) (hdr : AuthHeader)
    (pathId : Nat) (db : Db) : HttpResponse × Db :=
  authGate secret now hdr (fun authId => deleteUser authId pathId) db

/-- The full POST /articles route: authenticateToken then the handler body. -/
def postArticlesRoute (secret : String) (now : Nat) (hdr : AuthHeader)
    (title bodyText category : String) (createdAt : Nat) (db : Db) : HttpResponse × Db :=
  authGate secret now hdr
    (fun authId => postArticle authId title bodyText category createdAt) db

/-! ## Validators modelled from the spec -/

/-- Modelled from the spec: `validatePartialUserData`
(src/middleware/user-validation.ts is not under src/).  Spec 4.4 step 3 and
section 7: a PATCH body is valid when it provides at least one field to
update and every provided field is well-formed (non-empty); malformed or
missing input fails ValidationError/400 before the handler runs. -/
def validatePartialUserData (username? email? : Option String) : Bool :=
  (truthy username? || truthy email?) &&
  (username?.isNone || truthy username?) &&
  (email?.isNone || truthy email?)

/-! ## Unauthenticated read endpoints

The store call of a read handler is its `pool.execute(...)`; it is modelled as
an oracle function so that a failed call (`Except.error`) and independence
from the store can be stated.  `Number(req.params.id)` on a path segment is
modelled by `jsNumber`: a numeric string parses, anything non-numeric yields
NaN, represented as `none`. -/

/-- Failure of a store/library call inside a handler (a rejected
pool.execute promise). -/
inductive StoreFailure where
  | queryError
  | connectionError
deriving DecidableEq, Repr

/-- JavaScript `Number()` applied to a path segment (a segment is never
empty, or the route would not have matched): a digit string parses to its
decimal value, a non-numeric segment yields NaN, represented as `none`. -/
def jsNumber (s : String) : Option Int :=
  if s.data ≠ [] ∧ s.data.all (fun c => c.isDigit) then
    some ((s.data.foldl (fun acc c => acc * 10 + (c.toNat - 48)) 0 : Nat) : Int)
  else none

/-- JSON row of the GET /users/:id/articles result (the SELECT projects id,
title, body, category, created_at). -/
def articleJson (a : Article) : JsonVal :=
  JsonVal.obj [("id", JsonVal.num a.id), ("title", JsonVal.str a.title),
               ("body", JsonVal.str a.body), ("category", JsonVal.str a.category),
               ("created_at", JsonVal.num a.created_at)]

/-- GET /users/:id/articles (src/src/routes/users.ts:394-413): the isNaN guard
returns 400 before any query; otherwise the articles-by-user query runs
(`store`), a failure is caught and becomes the 500 response. -/
def getUserArticles (store : Int → Except StoreFailure (List Article))
    (idStr : String) : HttpResponse :=
  match jsNumber idStr with
  | none => ⟨400, errorBody "Invalid user ID"⟩
  | some submitted_by =>
    match store submitted_by with
    | Except.error _ => ⟨500, errorBody "Failed to fetch user article"⟩
    | Except.ok rows => ⟨200, JsonVal.arr (rows.map articleJson)⟩

/-- JSON row of the posts-with-user join result. -/
def postWithUserJson (r : Article × User) : JsonVal :=
  JsonVal.obj [("id", JsonVal.num r.1.id), ("title", JsonVal.str r.1.title),
               ("body", JsonVal.str r.1.body), ("category", JsonVal.str r.1.category),
               ("created_at", JsonVal.num r.1.created_at),
               ("username", JsonVal.str r.2.username), ("email", JsonVal.str r.2.email)]

/-- GET /users/:id/posts-with-user (src/src/routes/users.ts:458-474).  There
is no isNaN guard: the query runs with whatever `Number()` produced (the
oracle therefore receives an `Option Int`, `none` for NaN).  There is also no
try/catch: a failing store call escapes the handler and no response is
produced (`none`). -/
def getPostsWithUser (store : Option Int → Except StoreFailure (List (Article × User)))
    (idStr : String) : Option HttpResponse :=
  let submitted_by := jsNumber idStr
  match store submitted_by with
  | Except.error _ => none
  | Except.ok rows => some ⟨200, JsonVal.arr (rows.map postWithUserJson)⟩

/-- JSON row of the GET /articles result (the SELECT projects title, body,
category, created_at). -/
def articleListJson (a : Article) : JsonVal :=
  JsonVal.obj [("title", JsonVal.str a.title), ("body", JsonVal.str a.body),
               ("category", JsonVal.str a.category), ("created_at", JsonVal.num a.created_at)]

/-- GET /articles (src/src/routes/articles.ts:38-50): no parameters; a failed
store call is caught and becomes the generic 500 response. -/
def listArticles (q : Except StoreFailure (List Article)) : HttpResponse :=
  match q with
  | Except.error _ => ⟨500, errorBody "Failed to fetch articles"⟩
  | Except.ok rows => ⟨200, JsonVal.arr (rows.map articleListJson)⟩

/-! ## Mounted HTTP surface -/

/-- The method-path pairs the application serves: src/src/index.ts mounts
userRoutes at /users, authRoutes at /auth and articleRoutes at /articles, and
each router's registered routes are read off its file. -/
def mountedRoutes : List (String × String) :=
  [("POST", "/users/register"),
   ("PUT", "/users/:id"),
   ("PATCH", "/users/:id"),
   ("DELETE", "/users/:id"),
   ("GET", "/users/:id/articles"),
   ("GET", "/users/:id/posts-with-user"),
   ("POST", "/auth/register"),
   ("POST", "/auth/login"),
   ("GET", "/articles"),
   ("POST", "/articles")]

/-- The HTTP surface as the spec's section 6 table lists it — a definition
following the spec's words, for comparison against `mountedRoutes`. -/
def specHttpSurface : List (String × String) :=
  [("POST", "/auth/register"),
   ("POST", "/auth/login"),
   ("GET", "/articles"),
   ("POST", "/articles"),
   ("GET", "/users/:id/articles"),
   ("GET", "/users/:id/posts-with-user"),
   ("PUT", "/users/:id"),
   ("PATCH", "/users/:id"),
   ("DELETE", "/users/:id")]

/-! ## Helper lemmas -/

/-- A per-row conditional rewrite that never fires leaves the table unchanged. -/
lemma map_if_id (l : List User) (i : Nat) (f : User → User)
    (h : ∀ u ∈ l, u.id ≠ i) :
    l.map (fun u => if u.id = i then f u else u) = l := by
  have : l.map (fun u => if u.id = i then f u else u) = l.map (fun u => u) :=
    List.map_congr_left (fun u hu => if_neg (h u hu))
  simpa using this

/-- When the PATCH body provides at least one truthy field, the database state
after the handler is the table with the provided fields rewritten on the rows
matching the path id, whatever status was sent. -/
lemma patchUser_snd (db : Db) (authId : Nat) (username? email? : Option String)
    (h : (truthy username? || truthy email?) = true) :
    (patchUser authId authId username? email? db).2 =
      { db with users := db.users.map (fun u =>
          if u.id = authId then
            { u with
              username := if truthy username? then username?.getD u.username else u.username,
              email := if truthy email? then email?.getD u.email else u.email }
          else u) } := by
  have hne : (!truthy username? && !truthy email?) = false := by
    rcases Bool.or_eq_true_iff.mp h with h1 | h1 <;> simp [h1]
  simp only [patchUser, ne_eq, not_true_eq_false, if_false, patchUpdate, hne]
  simp only [Bool.false_eq_true, if_false]

/-! ## Claim theorems -/

/-- C1 (code_bug): the spec requires POST /auth/register to answer 400 and
insert nothing whenever the email (or username) is already taken — in
particular a second registration with the same email and a different
username.  The handler's existence query binds its parameters in the wrong
order (username against the email column and vice versa), so the duplicate
email "a@x.com" under the fresh username "bob" is not detected: the handler
answers 201 and inserts a second row carrying the duplicate email. -/
theorem auth_register_misses_duplicate_email :
    (authRegister ⟨[⟨1, "alice", "a@x.com", "h1"⟩], [], 2, 1⟩ "bob" "a@x.com" "h2").1.status = 201 ∧
    (authRegister ⟨[⟨1, "alice", "a@x.com", "h1"⟩], [], 2, 1⟩ "bob" "a@x.com" "h2").2.users =
      [⟨1, "alice", "a@x.com", "h1"⟩, ⟨2, "bob", "a@x.com", "h2"⟩] := by
  decide

/-- C2 (code_bug): the spec says the password hash never appears in any
response.  The PATCH /users/:id success path re-reads the row with
`SELECT *` and sends it whole, so its 200 body contains a "password" field
with the stored digest — while the register and login success bodies indeed
contain none. -/
theorem patch_response_leaks_password_hash :
    (patchUser 1 1 none (some "new@x.com") ⟨[⟨1, "alice", "a@x.com", "digest1"⟩], [], 2, 1⟩).1.status = 200 ∧
    JsonVal.hasKey "password"
      (patchUser 1 1 none (some "new@x.com") ⟨[⟨1, "alice", "a@x.com", "digest1"⟩], [], 2, 1⟩).1.body = true ∧
    JsonVal.hasKey "password"
      (authRegister ⟨[], [], 1, 1⟩ "alice" "a@x.com" "digest1").1.body = false ∧
    JsonVal.hasKey "password"
      (authLogin (fun p d => p == d) "s" 0 100 ⟨[⟨1, "alice", "a@x.com", "pw"⟩], [], 2, 1⟩ "a@x.com" "pw").body = false := by
  decide

/-- C3 (confirmed): a login whose email matches no stored user and a login
whose email exists but whose password fails verification produce the same
401 status and the identical error body, so the response reveals nothing
about whether the email exists. -/
theorem login_indistinguishable_401
    (compare : String → String → Bool) (secret : String) (now lifetime : Nat)
    (db : Db) (email1 password1 email2 password2 : String)
    (h1 : ∀ u ∈ db.users, u.email ≠ email1)
    (_h2 : ∃ u ∈ db.users, u.email = email2)
    (h3 : ∀ u ∈ db.users, u.email = email2 → compare password2 u.password = false) :
    authLogin compare secret now lifetime db email1 password1 =
      ⟨401, errorBody "Invalid email or password"⟩ ∧
    authLogin compare secret now lifetime db email2 password2 =
      ⟨401, errorBody "Invalid email or password"⟩ ∧
    authLogin compare secret now lifetime db email1 password1 =
      authLogin compare secret now lifetime db email2 password2 := by
  have q1 : selectUsersByEmail db email1 = [] := by
    apply List.filter_eq_nil_iff.mpr
    intro u hu
    simp [h1 u hu]
  have e1 : authLogin compare secret now lifetime db email1 password1 =
      ⟨401, errorBody "Invalid email or password"⟩ := by
    simp only [authLogin, q1]
  have e2 : authLogin compare secret now lifetime db email2 password2 =
      ⟨401, errorBody "Invalid email or password"⟩ := by
    simp only [authLogin]
    cases hc : selectUsersByEmail db email2 with
    | nil => rfl
    | cons u rest =>
      have humem : u ∈ selectUsersByEmail db email2 := by
        rw [hc]; exact List.mem_cons_self u rest
      have hue : u.email = email2 := by
        have := List.mem_filter.mp humem
        simpa using this.2
      have hcmp := h3 u (List.mem_filter.mp humem).1 hue
      simp [hcmp]
  exact ⟨e1, e2, e1.trans e2.symm⟩

/-- Witness for C3 at a concrete store: the unknown email "b@x.com" and the
known email "a@x.com" with a wrong password yield the same response. -/
theorem login_indistinguishable_401_witness :
    (∀ u ∈ (⟨[⟨1, "alice", "a@x.com", "pw"⟩], [], 2, 1⟩ : Db).users, u.email ≠ "b@x.com") ∧
    (∃ u ∈ (⟨[⟨1, "alice", "a@x.com", "pw"⟩], [], 2, 1⟩ : Db).users, u.email = "a@x.com") ∧
    (∀ u ∈ (⟨[⟨1, "alice", "a@x.com", "pw"⟩], [], 2, 1⟩ : Db).users, u.email = "a@x.com" →
        (fun p d => p == d) "wrong" u.password = false) ∧
    authLogin (fun p d => p == d) "s" 0 100 ⟨[⟨1, "alice", "a@x.com", "pw"⟩], [], 2, 1⟩ "b@x.com" "x" =
      authLogin (fun p d => p == d) "s" 0 100 ⟨[⟨1, "alice", "a@x.com", "pw"⟩], [], 2, 1⟩ "a@x.com" "wrong" :=
  ⟨by decide, by decide, by decide,
   (login_indistinguishable_401 (fun p d => p == d) "s" 0 100
      ⟨[⟨1, "alice", "a@x.com", "pw"⟩], [], 2, 1⟩ "b@x.com" "x" "a@x.com" "wrong"
      (by decide) (by decide) (by decide)).2.2⟩

/-- C4 (confirmed): whenever the identity the auth gate attached differs from
the numeric path id, PUT, PATCH and DELETE on /users/:id answer 403 and leave
every user row unchanged. -/
theorem mutation_mismatched_id_forbidden
    (db : Db) (authId pathId : Nat) (username email : String)
    (username? email? : Option String) (h : authId ≠ pathId) :
    putUser authId pathId username email db =
      (⟨403, errorBody "Users can only update their own account"⟩, db) ∧
    patchUser authId pathId username? email? db =
      (⟨403, errorBody "Users can only update their own account"⟩, db) ∧
    deleteUser authId pathId db =
      (⟨403, errorBody "Users can only update their own account"⟩, db) := by
  refine ⟨?_, ?_, ?_⟩ <;> simp [putUser, patchUser, deleteUser, h]

/-- Witness for C4: identity 1 on path id 2 gets 403 and the table is intact. -/
theorem mutation_mismatched_id_forbidden_witness :
    (1 : Nat) ≠ 2 ∧
    putUser 1 2 "bob" "b@x.com" ⟨[⟨2, "alice", "a@x.com", "pw"⟩], [], 3, 1⟩ =
      (⟨403, errorBody "Users can only update their own account"⟩,
       ⟨[⟨2, "alice", "a@x.com", "pw"⟩], [], 3, 1⟩) :=
  ⟨by decide,
   (mutation_mismatched_id_forbidden ⟨[⟨2, "alice", "a@x.com", "pw"⟩], [], 3, 1⟩ 1 2
      "bob" "b@x.com" none (some "e@x.com") (by decide)).1⟩

/-- C5 (confirmed): when the path id equals the attached identity but no user
row carries that id, PUT, PATCH and DELETE answer 404 (not 403 and not their
success status) and the state is unchanged; consequently a DELETE that
succeeded with 204 makes a second identical DELETE answer 404. -/
theorem mutation_missing_row_not_found
    (db : Db) (authId : Nat) (username email : String) (username? email? : Option String)
    (hval : validatePartialUserData username? email? = true)
    (hnone : ∀ u ∈ db.users, u.id ≠ authId) :
    putUser authId authId username email db = (⟨404, messageBody "User not found"⟩, db) ∧
    patchUser authId authId username? email? db = (⟨404, messageBody "User not found"⟩, db) ∧
    deleteUser authId authId db = (⟨404, messageBody "User not found"⟩, db) ∧
    (∀ (db2 : Db) (id2 : Nat), (∃ u ∈ db2.users, u.id = id2) →
      (deleteUser id2 id2 db2).1.status = 204 ∧
      (deleteUser id2 id2 (deleteUser id2 id2 db2).2).1.status = 404) := by
  have hfilterEq : ∀ p : User → Bool, (∀ u ∈ db.users, p u = false) →
      db.users.filter p = [] := by
    intro p hp
    exact List.filter_eq_nil_iff.mpr (fun u hu => by simp [hp u hu])
  refine ⟨?_, ?_, ?_, ?_⟩
  · -- PUT: the UPDATE matches no row, affectedRows is 0
    simp only [putUser, ne_eq, not_true_eq_false, if_false, updateUser]
    rw [hfilterEq _ (fun u hu => by simp [hnone u hu]), map_if_id _ _ _ hnone]
    simp
  · -- PATCH: ditto for the dynamic UPDATE
    simp only [patchUser, ne_eq, not_true_eq_false, if_false, patchUpdate]
    have hsome : (!truthy username? && !truthy email?) = false := by
      have := hval
      simp only [validatePartialUserData, Bool.and_eq_true, Bool.or_eq_true] at this
      rcases this.1.1 with h1 | h1 <;> simp [h1]
    rw [hsome]
    simp only [Bool.false_eq_true, if_false]
    rw [hfilterEq _ (fun u hu => by simp [hnone u hu]), map_if_id _ _ _ hnone]
    simp
  · -- DELETE: removes nothing
    simp only [deleteUser, ne_eq, not_true_eq_false, if_false, deleteUserRow]
    rw [hfilterEq _ (fun u hu => by simp [hnone u hu])]
    rw [List.filter_eq_self.mpr (fun u hu => by simp [hnone u hu])]
    simp
  · -- first DELETE answers 204 and clears the id, the second answers 404
    intro db2 id2 hex
    obtain ⟨u, hu, hid⟩ := hex
    have hmem : u ∈ db2.users.filter (fun u => u.id == id2) :=
      List.mem_filter.mpr ⟨hu, by simp [hid]⟩
    have hpos : (db2.users.filter (fun u => u.id == id2)).length ≠ 0 :=
      Nat.pos_iff_ne_zero.mp (List.length_pos_of_mem hmem)
    have hsnd : (deleteUser id2 id2 db2).2 =
        { db2 with users := db2.users.filter (fun u => u.id != id2) } := by
      simp only [deleteUser, ne_eq, not_true_eq_false, if_false, deleteUserRow]
      split <;> rfl
    constructor
    · simp only [deleteUser, ne_eq, not_true_eq_false, if_false, deleteUserRow]
      rw [if_neg hpos]
    · rw [hsnd]
      simp only [deleteUser, ne_eq, not_true_eq_false, if_false, deleteUserRow]
      have hnil : ((db2.users.filter (fun u => u.id != id2)).filter
          (fun u => u.id == id2)) = [] := by
        apply List.filter_eq_nil_iff.mpr
        intro v hv
        have := (List.mem_filter.mp hv).2
        simp_all
      rw [hnil]
      simp

/-- Witness for C5: with only user id 1 stored, identity 5 on path id 5 gets
404 and the table is intact. -/
theorem mutation_missing_row_not_found_witness :
    validatePartialUserData none (some "e@x.com") = true ∧
    (∀ u ∈ (⟨[⟨1, "alice", "a@x.com", "pw"⟩], [], 2, 1⟩ : Db).users, u.id ≠ 5) ∧
    putUser 5 5 "bob" "b@x.com" ⟨[⟨1, "alice", "a@x.com", "pw"⟩], [], 2, 1⟩ =
      (⟨404, messageBody "User not found"⟩, ⟨[⟨1, "alice", "a@x.com", "pw"⟩], [], 2, 1⟩) :=
  ⟨by decide, by decide,
   (mutation_missing_row_not_found ⟨[⟨1, "alice", "a@x.com", "pw"⟩], [], 2, 1⟩ 5
      "bob" "b@x.com" none (some "e@x.com") (by decide) (by decide)).1⟩

/-- C6 (confirmed): an owner PATCH updates exactly the fields present in the
body and leaves absent fields untouched: the id and password columns are
unchanged everywhere, while the username and email of the target row become
the provided value when the field is present and stay as they were when it
is absent — in particular a body carrying only an email changes only the
target row's email. -/
theorem patch_updates_exactly_present_fields
    (db : Db) (authId : Nat) (username? email? : Option String)
    (hval : validatePartialUserData username? email? = true) :
    ((patchUser authId authId username? email? db).2.users.map User.id =
       db.users.map User.id) ∧
    ((patchUser authId authId username? email? db).2.users.map User.password =
       db.users.map User.password) ∧
    ((patchUser authId authId username? email? db).2.users.map User.username =
       db.users.map (fun u => if u.id = authId then username?.getD u.username else u.username)) ∧
    ((patchUser authId authId username? email? db).2.users.map User.email =
       db.users.map (fun u => if u.id = authId then email?.getD u.email else u.email)) := by
  simp only [validatePartialUserData, Bool.and_eq_true] at hval
  obtain ⟨⟨hsome, hu⟩, he⟩ := hval
  have husername : truthy username? = username?.isSome := by
    cases username? with
    | none => rfl
    | some x => simpa using hu
  have hemail : truthy email? = email?.isSome := by
    cases email? with
    | none => rfl
    | some x => simpa using he
  rw [patchUser_snd db authId username? email? hsome]
  refine ⟨?_, ?_, ?_, ?_⟩ <;>
    · simp only [List.map_map]
      apply List.map_congr_left
      intro u hu'
      by_cases hid : u.id = authId
      · cases username? <;> cases email? <;>
          simp_all [truthy, Option.getD]
      · simp [hid]

/-- Witness for C6: PATCH with only an email field on the owner's row rewrites
only that row's email; the username column is untouched. -/
theorem patch_updates_exactly_present_fields_witness :
    validatePartialUserData none (some "new@x.com") = true ∧
    ((patchUser 1 1 none (some "new@x.com") ⟨[⟨1, "alice", "a@x.com", "pw"⟩], [], 2, 1⟩).2.users.map User.username =
      (⟨[⟨1, "alice", "a@x.com", "pw"⟩], [], 2, 1⟩ : Db).users.map
        (fun u => if u.id = 1 then Option.getD none u.username else u.username)) ∧
    ((patchUser 1 1 none (some "new@x.com") ⟨[⟨1, "alice", "a@x.com", "pw"⟩], [], 2, 1⟩).2.users.map User.email =
      (⟨[⟨1, "alice", "a@x.com", "pw"⟩], [], 2, 1⟩ : Db).users.map
        (fun u => if u.id = 1 then Option.getD (some "new@x.com") u.email else u.email)) :=
  ⟨by decide,
   (patch_updates_exactly_present_fields ⟨[⟨1, "alice", "a@x.com", "pw"⟩], [], 2, 1⟩ 1
      none (some "new@x.com") (by decide)).2.2.1,
   (patch_updates_exactly_present_fields ⟨[⟨1, "alice", "a@x.com", "pw"⟩], [], 2, 1⟩ 1
      none (some "new@x.com") (by decide)).2.2.2⟩

/-- C7 (code_bug): the spec says every handler catches store failures and
maps them to a generic 500.  GET /users/:id/posts-with-user has no try/catch,
so a failing store call escapes the handler and no response is produced —
while handlers that do wrap their calls (GET /articles, GET
/users/:id/articles) answer the generic 500. -/
theorem posts_with_user_store_failure_escapes :
    getPostsWithUser (fun _ => Except.error StoreFailure.queryError) "1" = none ∧
    listArticles (Except.error StoreFailure.queryError) =
      ⟨500, errorBody "Failed to fetch articles"⟩ ∧
    getUserArticles (fun _ => Except.error StoreFailure.queryError) "1" =
      ⟨500, errorBody "Failed to fetch user article"⟩ := by
  exact ⟨rfl, rfl, rfl⟩

/-- Counterexample for C8: on the non-numeric path id "abc", GET
/users/:id/posts-with-user does not answer 400 and does execute its query —
the response tracks the store's answer (200 with rows on success, an escaped
rejection on failure). -/
theorem posts_with_user_non_numeric_id_executes_query :
    getPostsWithUser (fun _ => Except.ok []) "abc" = some ⟨200, JsonVal.arr []⟩ ∧
    getPostsWithUser (fun _ => Except.error StoreFailure.queryError) "abc" = none := by
  exact ⟨rfl, rfl⟩

/-- C8 (corrected): of the two unauthenticated reads taking a path id, only
GET /users/:id/articles guards against a non-numeric id — it answers 400 and
its response is independent of the store, so no query matters; GET
/users/:id/posts-with-user has no such guard and never produces a 400: any
response it does send is a 200. -/
theorem non_numeric_id_guard_only_on_articles
    (idStr : String) (h : jsNumber idStr = none)
    (store store2 : Int → Except StoreFailure (List Article))
    (jstore : Option Int → Except StoreFailure (List (Article × User))) :
    getUserArticles store idStr = ⟨400, errorBody "Invalid user ID"⟩ ∧
    getUserArticles store idStr = getUserArticles store2 idStr ∧
    (∀ r : HttpResponse, getPostsWithUser jstore idStr = some r → r.status = 200) := by
  have e1 : getUserArticles store idStr = ⟨400, errorBody "Invalid user ID"⟩ := by
    simp only [getUserArticles, h]
  have e2 : getUserArticles store2 idStr = ⟨400, errorBody "Invalid user ID"⟩ := by
    simp only [getUserArticles, h]
  refine ⟨e1, e1.trans e2.symm, ?_⟩
  intro r hr
  simp only [getPostsWithUser] at hr
  cases hq : jstore (jsNumber idStr) with
  | error e => rw [hq] at hr; exact absurd hr (by simp)
  | ok rows =>
    rw [hq] at hr
    simp only [Option.some.injEq] at hr
    rw [← hr]

/-- Witness for C8: the non-numeric id "abc" gets 400 from GET
/users/:id/articles. -/
theorem non_numeric_id_guard_only_on_articles_witness :
    jsNumber "abc" = none ∧
    getUserArticles (fun _ => Except.ok []) "abc" = ⟨400, errorBody "Invalid user ID"⟩ :=
  ⟨by decide,
   (non_numeric_id_guard_only_on_articles "abc" (by decide)
      (fun _ => Except.ok []) (fun _ => Except.error StoreFailure.queryError)
      (fun _ => Except.ok [])).1⟩

/-- C9 (confirmed, gate modelled from spec 4.3): when the authorization
header is missing, malformed, or carries a token failing verification, every
bearer-protected route — PUT, PATCH and DELETE on /users/:id and POST
/articles — answers 401 and the handler never runs, so the database is
unchanged. -/
theorem gate_rejection_blocks_handlers
    (secret : String) (now : Nat) (hdr : AuthHeader) (db : Db)
    (pathId : Nat) (username email : String) (username? email? : Option String)
    (title bodyText category : String) (createdAt : Nat)
    (h : authRejected secret now hdr = true) :
    putUsersRoute secret now hdr pathId username email db =
      (⟨401, errorBody "Unauthorized"⟩, db) ∧
    patchUsersRoute secret now hdr pathId username? email? db =
      (⟨401, errorBody "Unauthorized"⟩, db) ∧
    deleteUsersRoute secret now hdr pathId db =
      (⟨401, errorBody "Unauthorized"⟩, db) ∧
    postArticlesRoute secret now hdr title bodyText category createdAt db =
      (⟨401, errorBody "Unauthorized"⟩, db) := by
  cases hdr with
  | missing => exact ⟨rfl, rfl, rfl, rfl⟩
  | malformed raw => exact ⟨rfl, rfl, rfl, rfl⟩
  | bearer t =>
    cases hv : verifyToken secret now t with
    | error e =>
      refine ⟨?_, ?_, ?_, ?_⟩ <;>
        simp [putUsersRoute, patchUsersRoute, deleteUsersRoute, postArticlesRoute,
              authGate, hv]
    | ok s =>
      rw [authRejected, hv] at h
      exact absurd h (by simp)

/-- Witness for C9: a request with no authorization header gets 401 from PUT
/users/:id and the database is untouched. -/
theorem gate_rejection_blocks_handlers_witness :
    authRejected "secret" 0 AuthHeader.missing = true ∧
    putUsersRoute "secret" 0 AuthHeader.missing 1 "bob" "b@x.com" ⟨[], [], 1, 1⟩ =
      (⟨401, errorBody "Unauthorized"⟩, ⟨[], [], 1, 1⟩) :=
  ⟨rfl,
   (gate_rejection_blocks_handlers "secret" 0 AuthHeader.missing ⟨[], [], 1, 1⟩ 1
      "bob" "b@x.com" none none "t" "b" "c" 0 rfl).1⟩

/-- C10 (confirmed): POST /users/register is mounted although absent from the
spec's HTTP surface; its existence query binds (email, username) in the order
its SQL expects, so any request whose email or username collides with a
stored user gets 400 and no insert — and at the very input where POST
/auth/register (opposite binding order) answers 201 and inserts, the two
handlers give different responses, so they are not behaviorally equivalent. -/
theorem users_register_route_and_inequivalence
    (db : Db) (username email hashedPassword : String)
    (h : ∃ u ∈ db.users, u.email = email ∨ u.username = username) :
    usersRegister db username email hashedPassword =
      (⟨400, errorBody "User already exists with that email or username"⟩, db) ∧
    ("POST", "/users/register") ∈ mountedRoutes ∧
    ("POST", "/users/register") ∉ specHttpSurface ∧
    (usersRegister ⟨[⟨1, "alice", "a@x.com", "h1"⟩], [], 2, 1⟩ "bob" "a@x.com" "h2").1.status = 400 ∧
    (authRegister ⟨[⟨1, "alice", "a@x.com", "h1"⟩], [], 2, 1⟩ "bob" "a@x.com" "h2").1.status = 201 ∧
    usersRegister ⟨[⟨1, "alice", "a@x.com", "h1"⟩], [], 2, 1⟩ "bob" "a@x.com" "h2" ≠
      authRegister ⟨[⟨1, "alice", "a@x.com", "h1"⟩], [], 2, 1⟩ "bob" "a@x.com" "h2" := by
  obtain ⟨u, hu, hcase⟩ := h
  have hmem : u ∈ (selectUsersByEmailOrUsername db email username) := by
    apply List.mem_filter.mpr
    refine ⟨hu, ?_⟩
    rcases hcase with h1 | h1 <;> simp [h1]
  have hlen : 0 < (selectUsersByEmailOrUsername db email username).length :=
    List.length_pos_of_mem hmem
  refine ⟨?_, by decide, by decide, by decide, by decide, ?_⟩
  · simp only [usersRegister]
    rw [if_pos hlen]
  · intro heq
    have := congrArg (fun p => p.1.status) heq
    simp only at this
    exact absurd this (by decide)

/-- Witness for C10: registering "bob" under the already-stored email
"a@x.com" through POST /users/register answers 400 and inserts nothing. -/
theorem users_register_route_and_inequivalence_witness :
    (∃ u ∈ (⟨[⟨1, "alice", "a@x.com", "h1"⟩], [], 2, 1⟩ : Db).users,
        u.email = "a@x.com" ∨ u.username = "bob") ∧
    usersRegister ⟨[⟨1, "alice", "a@x.com", "h1"⟩], [], 2, 1⟩ "bob" "a@x.com" "h2" =
      (⟨400, errorBody "User already exists with that email or username"⟩,
       ⟨[⟨1, "alice", "a@x.com", "h1"⟩], [], 2, 1⟩) :=
  ⟨by decide,
   (users_register_route_and_inequivalence ⟨[⟨1, "alice", "a@x.com", "h1"⟩], [], 2, 1⟩
      "bob" "a@x.com" "h2" (by decide)).1⟩

end DevPlatformsCA
